import Mathlib

/-!
Verification of the compiler invocation harness (`api/utils/compiler.py`,
class `CompilerInvoker`).

The harness is embedded shallowly.  External effects (the outcome of
`subprocess.run`, the state of each dump file in the workspace at read
time — including a JSON dump whose read raises an exception outside the
classes `_read_json_file` catches — and a possible exception while
writing the source file) are supplied by
a `World` value; `compile` is then a pure function of that world, the
Python dictionary it returns is the structure `ResultDict`, a propagated
Python exception is `Except.error`, and the `print`ed warnings of
`_read_json_file` are collected in a `warnings` list.  The lifetime of the
`tempfile.TemporaryDirectory` is reflected in the `workspaceExists` field:
the context manager removes the directory both on normal return and while
an exception propagates, so every branch of `compile` sets it to `false`.

Strings handed to `_parse_errors` are processed character by character
(`String.data`), so that Python `str.split` on a newline and `str.strip`
are modelled exactly, including the trailing empty piece that Python
produces for text ending in a newline.
-/

namespace CompilerHarness

/-- The ASCII whitespace characters removed by Python `str.strip()`
(space, tab, newline, carriage return, vertical tab, form feed).
Non-ASCII Unicode whitespace does not occur in compiler diagnostics and
is not modelled. -/
def isPySpace (c : Char) : Bool :=
  c = ' ' || c = '\t' || c = '\n' || c = '\r' || c = '\x0b' || c = '\x0c'

/-- Python `str.strip()`: drop leading and trailing whitespace. -/
def pyStrip (s : List Char) : List Char :=
  ((s.dropWhile isPySpace).reverse.dropWhile isPySpace).reverse

/-- Python `str.split` on a single newline character: every occurrence of
the separator produces a boundary, so text ending in a newline yields a
trailing empty piece, and the empty string yields one empty piece. -/
def pySplit : List Char → List (List Char)
  | [] => [[]]
  | c :: cs =>
    if c = '\n' then [] :: pySplit cs
    else
      match pySplit cs with
      | t :: ts => (c :: t) :: ts
      | [] => [[c]]

/-- Model of `CompilerInvoker._parse_errors`: if the whole text strips to nothing
return the empty list, otherwise strip each line of `stderr.split` on
newlines and keep the nonempty results, in order. -/
def parse_errors (stderr : String) : List String :=
  if (pyStrip stderr.data).isEmpty then []
  else
    (pySplit stderr.data).filterMap fun line =>
      let t := pyStrip line
      if t.isEmpty then none else some (String.mk t)

/-- State of a JSON dump file that `_read_json_file` handles itself: the
file may be absent, present but failing to parse with one of the caught
exception classes (`json.JSONDecodeError` or `IOError`; the error text is
`err`), or present with a parsed document.  The parsed document is opaque
to the harness and carried as a string. -/
inductive JsonFile where
  | absent : JsonFile
  | malformed (err : String) : JsonFile
  | parsed (doc : String) : JsonFile
deriving DecidableEq

/-- A JSON dump path as the collector meets it: either one of the states
`_read_json_file` handles itself (`readable`), or a file whose read makes
`json.load` raise an exception outside `(json.JSONDecodeError, IOError)`
— e.g. `UnicodeDecodeError` on an invalid-UTF-8 dump, or
`RecursionError` on deep nesting — which escapes `_read_json_file`
(`raising`, with the exception text). -/
inductive JsonDump where
  | readable (f : JsonFile) : JsonDump
  | raising (msg : String) : JsonDump
deriving DecidableEq

/-- The non-raising outcomes of `_read_json_file`: a missing file yields
`none` with no warning; a file failing to parse with a caught exception
class yields `none` and the fault is logged as a warning (Python
`print`); a parsable file yields its document. -/
def read_json_caught (name : String) : JsonFile → Option String × List String
  | .absent => (none, [])
  | .malformed err =>
    (none, ["Warning: Failed to read JSON file " ++ name ++ ": " ++ err])
  | .parsed doc => (some doc, [])

/-- Model of `CompilerInvoker._read_json_file`: on the states its
`except (json.JSONDecodeError, IOError)` clause covers it returns
normally (see `read_json_caught`); an exception outside those classes
escapes the function (`Except.error`) and must be handled by the
caller. -/
def read_json_file (name : String) : JsonDump → Except String (Option String × List String)
  | .readable f => .ok (read_json_caught name f)
  | .raising msg => .error msg

/-- Model of `CompilerInvoker._read_text_file`: the raw contents if the file
exists, otherwise `none`.  (An `IOError` while reading, caught and logged
in the source, is not modelled: the file state already determines the
result.) -/
def read_text_file : Option String → Option String
  | some contents => some contents
  | none => none

/-- Outcome of `subprocess.run` when it returns: the completed process
record.  `returncode` is a Python `int`; on POSIX a process terminated by
signal `N` is reported as `-N`. -/
structure ProcResult where
  returncode : Int
  stdout : String
  stderr : String
deriving DecidableEq

/-- How the `subprocess.run` call inside `compile` ends: the process
completes (with any return code), the timeout expires
(`subprocess.TimeoutExpired`), or some other exception with text `msg` is
raised. -/
inductive RunOutcome where
  | completed (r : ProcResult) : RunOutcome
  | timedOut : RunOutcome
  | raised (msg : String) : RunOutcome
deriving DecidableEq

/-- One invocation's view of the outside world: whether writing the
source file raises (`write_text` happens before the `try` block, e.g. a
`UnicodeEncodeError` on surrogates), how the subprocess call ends, and
what each dump file holds when it is read afterwards — for the JSON
dumps including the possibility that reading them raises. -/
structure World where
  writeFail : Option String
  run : RunOutcome
  tokensFile : JsonDump
  astFile : JsonDump
  assemblyFile : Option String
  hexFile : Option String
deriving DecidableEq

/-- The dictionary returned by `CompilerInvoker.compile`. -/
structure ResultDict where
  success : Bool
  tokens : Option String
  ast : Option String
  assembly : Option String
  hex : Option String
  errors : List String
  stdout : String
  stderr : String
  return_code : Int
deriving DecidableEq

/-- Everything observable about one `compile` call: the returned
dictionary (or the propagated exception text), whether the temporary
workspace directory still exists after the call, and the warnings printed
while reading JSON dumps. -/
structure CompileOutput where
  result : Except String ResultDict
  workspaceExists : Bool
  warnings : List String

/-- The single synthetic error message built in the
`subprocess.TimeoutExpired` handler. -/
def timeoutMessage (timeout : Nat) : String :=
  "Compilation timeout after " ++ toString timeout ++ " seconds"

/-- Model of `CompilerInvoker.compile`.  The whole body runs inside
`with tempfile.TemporaryDirectory()`, which removes the directory on
every exit path, so `workspaceExists` is `false` in every branch.
`source_file.write_text` runs before the `try`, so an exception there
propagates (`Except.error`).  Inside the `try`: a completed process has
its dumps read — tokens first, then the AST — and if either JSON read
raises an uncaught exception it falls to the generic `except Exception`
handler (only the warnings already printed survive); otherwise `success`
is `returncode == 0` and `errors` come from `_parse_errors(stderr)`.
`TimeoutExpired` and any other exception return the two fixed fallback
dictionaries of the handlers. -/
def compile (w : World) (timeout : Nat) : CompileOutput :=
  match w.writeFail with
  | some msg => { result := .error msg, workspaceExists := false, warnings := [] }
  | none =>
    match w.run with
    | .completed r =>
      match read_json_file "tokens.json" w.tokensFile with
      | .error msg =>
        { result := .ok {
            success := false
            tokens := none
            ast := none
            assembly := none
            hex := none
            errors := ["Unexpected error: " ++ msg]
            stdout := ""
            stderr := msg
            return_code := -1 }
          workspaceExists := false
          warnings := [] }
      | .ok tk =>
        match read_json_file "ast.json" w.astFile with
        | .error msg =>
          { result := .ok {
              success := false
              tokens := none
              ast := none
              assembly := none
              hex := none
              errors := ["Unexpected error: " ++ msg]
              stdout := ""
              stderr := msg
              return_code := -1 }
            workspaceExists := false
            warnings := tk.2 }
        | .ok tree =>
          let assembly := read_text_file w.assemblyFile
          let hexDump := read_text_file w.hexFile
          { result := .ok {
              success := r.returncode == 0
              tokens := tk.1
              ast := tree.1
              assembly := assembly
              hex := hexDump
              errors := parse_errors r.stderr
              stdout := r.stdout
              stderr := r.stderr
              return_code := r.returncode }
            workspaceExists := false
            warnings := tk.2 ++ tree.2 }
    | .timedOut =>
      { result := .ok {
          success := false
          tokens := none
          ast := none
          assembly := none
          hex := none
          errors := [timeoutMessage timeout]
          stdout := ""
          stderr := ""
          return_code := -1 }
        workspaceExists := false
        warnings := [] }
    | .raised msg =>
      { result := .ok {
          success := false
          tokens := none
          ast := none
          assembly := none
          hex := none
          errors := ["Unexpected error: " ++ msg]
          stdout := ""
          stderr := msg
          return_code := -1 }
        workspaceExists := false
        warnings := [] }

/-- Environment sanitization before `subprocess.run` (an environment is a
partial map from variable names to values): copy `os.environ` and delete
`TMPDIR` when present, exactly as the source does. -/
def sanitizedEnv (env : String → Option String) : String → Option String :=
  if (env "TMPDIR").isSome then
    fun k => if k = "TMPDIR" then none else env k
  else env

/-- A constructed `CompilerInvoker` holds its compiler path. -/
structure CompilerInvoker where
  compiler_path : String
deriving DecidableEq

/-- The distinguished faults `CompilerInvoker.__init__` can raise. -/
inductive InitError where
  | fileNotFound (msg : String) : InitError
  | permissionError (msg : String) : InitError
deriving DecidableEq

/-- Model of `CompilerInvoker.__init__`: given whether the path exists and whether
it is executable (`os.path.exists` / `os.access(..., X_OK)`), construction
raises `FileNotFoundError` for a missing binary, then `PermissionError`
for a non-executable one, and otherwise succeeds. -/
def mkInvoker (compiler_path : String) (pathExists pathExecutable : Bool) :
    Except InitError CompilerInvoker :=
  if ¬ pathExists then
    .error (.fileNotFound ("Compiler not found at: " ++ compiler_path))
  else if ¬ pathExecutable then
    .error (.permissionError ("Compiler not executable: " ++ compiler_path))
  else
    .ok { compiler_path := compiler_path }

/-! ## Helper lemmas about the string machinery of the error parser -/

theorem pySplit_ne_nil (s : List Char) : pySplit s ≠ [] := by
  cases s with
  | nil => simp [pySplit]
  | cons c cs =>
    simp only [pySplit]
    by_cases h : c = '\n'
    · simp [h]
    · rw [if_neg h]
      cases pySplit cs <;> simp

theorem pyStrip_eq_nil_iff (s : List Char) :
    pyStrip s = [] ↔ ∀ c ∈ s, isPySpace c := by
  unfold pyStrip
  rw [List.reverse_eq_nil_iff, List.dropWhile_eq_nil_iff]
  constructor
  · intro h c hc
    have h2 : ∀ x ∈ s.dropWhile isPySpace, isPySpace x := by
      intro x hx
      exact h x (List.mem_reverse.mpr hx)
    rw [← List.takeWhile_append_dropWhile isPySpace s] at hc
    rcases List.mem_append.mp hc with h3 | h3
    · exact List.mem_takeWhile_imp h3
    · exact h2 c h3
  · intro h x hx
    rw [List.mem_reverse] at hx
    exact h x (List.Sublist.mem hx (List.dropWhile_sublist isPySpace))

theorem pySplit_all_space (s : List Char) (h : ∀ c ∈ s, isPySpace c) :
    ∀ l ∈ pySplit s, ∀ c ∈ l, isPySpace c := by
  induction s with
  | nil =>
    intro l hl
    simp only [pySplit, List.mem_singleton] at hl
    subst hl
    simp
  | cons c cs ih =>
    intro l hl
    have hc : isPySpace c := h c (List.mem_cons_self c cs)
    have hcs : ∀ x ∈ cs, isPySpace x := fun x hx => h x (List.mem_cons_of_mem c hx)
    simp only [pySplit] at hl
    by_cases hnl : c = '\n'
    · rw [if_pos hnl] at hl
      rcases List.mem_cons.mp hl with h1 | h1
      · subst h1; simp
      · exact ih hcs l h1
    · rw [if_neg hnl] at hl
      rcases hsp : pySplit cs with _ | ⟨t, ts⟩
      · exact absurd hsp (pySplit_ne_nil cs)
      · rw [hsp] at hl
        rcases List.mem_cons.mp hl with h1 | h1
        · subst h1
          intro x hx
          rcases List.mem_cons.mp hx with h2 | h2
          · subst h2; exact hc
          · exact ih hcs t (by rw [hsp]; exact List.mem_cons_self t ts) x h2
        · exact ih hcs l (by rw [hsp]; exact List.mem_cons_of_mem t h1)

theorem strip_filterMap_eq (xs : List (List Char)) :
    (xs.filterMap fun line =>
      let t := pyStrip line
      if t.isEmpty then none else some (String.mk t))
    = ((xs.map pyStrip).filter fun t => !t.isEmpty).map String.mk := by
  induction xs with
  | nil => rfl
  | cons l ls ih =>
    simp only [List.filterMap_cons, List.map_cons, List.filter_cons]
    by_cases h : (pyStrip l).isEmpty
    · rw [if_pos h]
      simp only [h, Bool.not_true, Bool.false_eq_true, if_false]
      exact ih
    · rw [if_neg h]
      have hb : (pyStrip l).isEmpty = false := by
        cases hbb : (pyStrip l).isEmpty
        · rfl
        · exact absurd hbb h
      simp only [hb, Bool.not_false, if_true, List.map_cons]
      rw [ih]

/-- The synthetic error message of the generic exception handler never
equals the synthetic timeout message: one starts with an uppercase U, the
other with an uppercase C. -/
theorem unexpectedMsg_ne_timeoutMessage (msg : String) (t : Nat) :
    "Unexpected error: " ++ msg ≠ timeoutMessage t := by
  intro h
  have hd : ("Unexpected error: " ++ msg).data.head? = (timeoutMessage t).data.head? :=
    congrArg (fun s => s.data.head?) h
  have h1 : ("Unexpected error: " ++ msg).data.head? = some 'U' := rfl
  have h2 : (timeoutMessage t).data.head? = some 'C' := rfl
  rw [h1, h2] at hd
  exact absurd hd (by decide)

/-- Stripping the lines of an all-whitespace text leaves nothing that
survives the nonempty filter. -/
theorem filter_strip_nil (s : List Char) (h : ∀ c ∈ s, isPySpace c) :
    ((pySplit s).map pyStrip).filter (fun t => !t.isEmpty) = [] := by
  rw [List.filter_eq_nil_iff]
  intro a ha
  rcases List.mem_map.mp ha with ⟨l, hl, rfl⟩
  have hnil : pyStrip l = [] := (pyStrip_eq_nil_iff l).mpr (pySplit_all_space s h l hl)
  simp [hnil]

/-! ## The claims -/

/-- Claim C1: for every invocation of compile, on every outcome
(successful compilation, nonzero compiler exit, timeout, internal
exception — including one that propagates out of the call), the
per-invocation workspace directory is removed before the call returns. -/
theorem claim_C1 (w : World) (t : Nat) : (compile w t).workspaceExists = false := by
  rcases w with ⟨wf, run, tf, af, asf, hf⟩
  cases wf
  · cases run
    · rcases tf with f | m
      · rcases af with g | m2 <;> rfl
      · rfl
    · rfl
    · rfl
  · rfl

/-- Witness for C1 at a concrete invocation. -/
theorem claim_C1_witness :
    (compile ⟨none, .completed ⟨0, "", ""⟩, .readable .absent, .readable .absent,
      none, none⟩ 30).workspaceExists = false :=
  claim_C1 ⟨none, .completed ⟨0, "", ""⟩, .readable .absent, .readable .absent, none, none⟩ 30

/-- Claim C2: when the compiler process runs to completion the result's
success field is true iff the exit code is exactly 0; a timeout or an
internal exception yields success = false. -/
theorem claim_C2 (tf af : JsonFile) (asf hf : Option String) (t : Nat) :
    (∀ (r : ProcResult) (d : ResultDict),
        (compile ⟨none, .completed r, .readable tf, .readable af, asf, hf⟩ t).result = .ok d →
          (d.success = true ↔ r.returncode = 0))
    ∧ (∀ d : ResultDict,
        (compile ⟨none, .timedOut, .readable tf, .readable af, asf, hf⟩ t).result = .ok d →
          d.success = false)
    ∧ (∀ (m : String) (d : ResultDict),
        (compile ⟨none, .raised m, .readable tf, .readable af, asf, hf⟩ t).result = .ok d →
          d.success = false) := by
  refine ⟨fun r d h => ?_, fun d h => ?_, fun m d h => ?_⟩
  · rw [show (compile ⟨none, .completed r, .readable tf, .readable af, asf, hf⟩ t).result = .ok
        { success := r.returncode == 0
          tokens := (read_json_caught "tokens.json" tf).1
          ast := (read_json_caught "ast.json" af).1
          assembly := read_text_file asf
          hex := read_text_file hf
          errors := parse_errors r.stderr
          stdout := r.stdout
          stderr := r.stderr
          return_code := r.returncode } from rfl, Except.ok.injEq] at h
    subst h
    simp
  · rw [show (compile ⟨none, .timedOut, .readable tf, .readable af, asf, hf⟩ t).result = .ok
        { success := false, tokens := none, ast := none, assembly := none, hex := none
          errors := [timeoutMessage t], stdout := "", stderr := "", return_code := -1 }
        from rfl, Except.ok.injEq] at h
    subst h
    rfl
  · rw [show (compile ⟨none, .raised m, .readable tf, .readable af, asf, hf⟩ t).result = .ok
        { success := false, tokens := none, ast := none, assembly := none, hex := none
          errors := ["Unexpected error: " ++ m], stdout := "", stderr := m
          return_code := -1 } from rfl, Except.ok.injEq] at h
    subst h
    rfl

/-- Witness for C2: a process that exits with code 0 yields success. -/
theorem claim_C2_witness :
    ({ success := true, tokens := none, ast := none, assembly := none, hex := none
       errors := [], stdout := "", stderr := "", return_code := 0 } : ResultDict).success
      = true :=
  ((claim_C2 .absent .absent none none 30).1 ⟨0, "", ""⟩
    { success := true, tokens := none, ast := none, assembly := none, hex := none
      errors := [], stdout := "", stderr := "", return_code := 0 } rfl).mpr rfl

/-- Claim C3: a timed-out invocation reports success = false, absent
artifacts even if the compiler had partially written them (the world's
file states are ignored), exactly one synthetic error message naming the
timeout, and the sentinel return code; the error list is not what the
error parser would extract from the result's stderr, i.e. it is
harness-generated. -/
theorem claim_C3 (tf af : JsonDump) (asf hf : Option String) (t : Nat) (d : ResultDict)
    (h : (compile ⟨none, .timedOut, tf, af, asf, hf⟩ t).result = .ok d) :
    d.success = false ∧ d.tokens = none ∧ d.ast = none ∧ d.assembly = none
    ∧ d.hex = none ∧ d.errors = [timeoutMessage t] ∧ d.errors.length = 1
    ∧ d.return_code = -1 ∧ d.errors ≠ parse_errors d.stderr := by
  rw [show (compile ⟨none, .timedOut, tf, af, asf, hf⟩ t).result = .ok
      { success := false, tokens := none, ast := none, assembly := none, hex := none
        errors := [timeoutMessage t], stdout := "", stderr := "", return_code := -1 }
      from rfl, Except.ok.injEq] at h
  subst h
  refine ⟨rfl, rfl, rfl, rfl, rfl, rfl, rfl, rfl, fun hc => ?_⟩
  have hpe : parse_errors "" = [] := by decide
  have hc2 : [timeoutMessage t] = parse_errors "" := hc
  rw [hpe] at hc2
  exact List.cons_ne_nil _ _ hc2

/-- Witness for C3 at a concrete timed-out invocation. -/
theorem claim_C3_witness :
    ({ success := false, tokens := none, ast := none, assembly := none, hex := none
       errors := [timeoutMessage 30], stdout := "", stderr := "", return_code := -1 } :
       ResultDict).return_code = -1 :=
  (claim_C3 (.readable .absent) (.raising "unreadable dump") none none 30
    { success := false, tokens := none, ast := none, assembly := none, hex := none
      errors := [timeoutMessage 30], stdout := "", stderr := "", return_code := -1 }
    rfl).2.2.2.2.2.2.2.1

/-- Counterexample to C4 as stated: a compiler process terminated by
signal 1 is reported by the process layer with return code -1
(Python reports signal death as the negated signal number), and compile
passes that code through, so a result whose process ran can still carry
the sentinel. -/
theorem claim_C4_counterexample :
    ¬ (∀ (r : ProcResult) (tf af : JsonFile) (asf hf : Option String) (t : Nat)
        (d : ResultDict),
        (compile ⟨none, .completed r, .readable tf, .readable af, asf, hf⟩ t).result = .ok d →
          d.return_code ≠ -1) := by
  intro h
  exact h ⟨-1, "out", "err"⟩ .absent .absent none none 30 _ rfl rfl

/-- Claim C4 (amended): the sentinel -1 is reported for the harness-level
faults (timeout, internal exception); for every completed process the
reported return code is the process's own code, and whenever that code is
nonnegative — as it is for every process that exits on its own rather
than being killed by a signal — it differs from the sentinel. -/
theorem claim_C4 (tf af : JsonFile) (asf hf : Option String) (t : Nat) :
    (∀ (r : ProcResult) (d : ResultDict), 0 ≤ r.returncode →
        (compile ⟨none, .completed r, .readable tf, .readable af, asf, hf⟩ t).result = .ok d →
          d.return_code = r.returncode ∧ d.return_code ≠ -1)
    ∧ (∀ d : ResultDict,
        (compile ⟨none, .timedOut, .readable tf, .readable af, asf, hf⟩ t).result = .ok d →
          d.return_code = -1)
    ∧ (∀ (m : String) (d : ResultDict),
        (compile ⟨none, .raised m, .readable tf, .readable af, asf, hf⟩ t).result = .ok d →
          d.return_code = -1) := by
  refine ⟨fun r d hr h => ?_, fun d h => ?_, fun m d h => ?_⟩
  · rw [show (compile ⟨none, .completed r, .readable tf, .readable af, asf, hf⟩ t).result = .ok
        { success := r.returncode == 0
          tokens := (read_json_caught "tokens.json" tf).1
          ast := (read_json_caught "ast.json" af).1
          assembly := read_text_file asf
          hex := read_text_file hf
          errors := parse_errors r.stderr
          stdout := r.stdout
          stderr := r.stderr
          return_code := r.returncode } from rfl, Except.ok.injEq] at h
    subst h
    refine ⟨rfl, ?_⟩
    show r.returncode ≠ -1
    omega
  · rw [show (compile ⟨none, .timedOut, .readable tf, .readable af, asf, hf⟩ t).result = .ok
        { success := false, tokens := none, ast := none, assembly := none, hex := none
          errors := [timeoutMessage t], stdout := "", stderr := "", return_code := -1 }
        from rfl, Except.ok.injEq] at h
    subst h
    rfl
  · rw [show (compile ⟨none, .raised m, .readable tf, .readable af, asf, hf⟩ t).result = .ok
        { success := false, tokens := none, ast := none, assembly := none, hex := none
          errors := ["Unexpected error: " ++ m], stdout := "", stderr := m
          return_code := -1 } from rfl, Except.ok.injEq] at h
    subst h
    rfl

/-- Witness for C4 (amended) at a process that exits normally with 0. -/
theorem claim_C4_witness :
    ({ success := true, tokens := none, ast := none, assembly := none, hex := none
       errors := [], stdout := "", stderr := "", return_code := 0 } : ResultDict).return_code
      ≠ -1 :=
  ((claim_C4 .absent .absent none none 30).1 ⟨0, "", ""⟩
    { success := true, tokens := none, ast := none, assembly := none, hex := none
      errors := [], stdout := "", stderr := "", return_code := 0 }
    (by decide) rfl).2

/-- Claim C5: the environment passed to the compiler subprocess is the
harness's environment with TMPDIR removed when present; every other
variable is passed through unchanged. -/
theorem claim_C5 (env : String → Option String) :
    sanitizedEnv env "TMPDIR" = none
    ∧ ∀ k : String, k ≠ "TMPDIR" → sanitizedEnv env k = env k := by
  unfold sanitizedEnv
  by_cases h : (env "TMPDIR").isSome
  · rw [if_pos h]
    exact ⟨if_pos rfl, fun k hk => if_neg hk⟩
  · rw [if_neg h]
    exact ⟨Option.not_isSome_iff_eq_none.mp h, fun k hk => rfl⟩

/-- Witness for C5 at a concrete two-variable environment. -/
theorem claim_C5_witness :
    sanitizedEnv (fun k => if k = "TMPDIR" then some "/custom/tmp"
      else if k = "PATH" then some "/usr/bin" else none) "PATH" = some "/usr/bin" :=
  (claim_C5 (fun k => if k = "TMPDIR" then some "/custom/tmp"
      else if k = "PATH" then some "/usr/bin" else none)).2 "PATH" (by decide)

/-- Claim C6: when the compiler process exits (with any code), every
artifact field collected from the workspace is included verbatim in the
result regardless of success; in particular a nonzero exit with a written
tokens dump yields a present tokens field and success = false. -/
theorem claim_C6 (tf af : JsonFile) (asf hf : Option String) (r : ProcResult) (t : Nat)
    (d : ResultDict)
    (h : (compile ⟨none, .completed r, .readable tf, .readable af, asf, hf⟩ t).result = .ok d) :
    d.tokens = (read_json_caught "tokens.json" tf).1
    ∧ d.ast = (read_json_caught "ast.json" af).1
    ∧ d.assembly = read_text_file asf
    ∧ d.hex = read_text_file hf
    ∧ (∀ doc : String, tf = .parsed doc → d.tokens = some doc)
    ∧ (r.returncode ≠ 0 → d.success = false) := by
  rw [show (compile ⟨none, .completed r, .readable tf, .readable af, asf, hf⟩ t).result = .ok
      { success := r.returncode == 0
        tokens := (read_json_caught "tokens.json" tf).1
        ast := (read_json_caught "ast.json" af).1
        assembly := read_text_file asf
        hex := read_text_file hf
        errors := parse_errors r.stderr
        stdout := r.stdout
        stderr := r.stderr
        return_code := r.returncode } from rfl, Except.ok.injEq] at h
  subst h
  refine ⟨rfl, rfl, rfl, rfl, fun doc hdoc => ?_, fun hrc => ?_⟩
  · subst hdoc; rfl
  · show (r.returncode == 0) = false
    exact beq_eq_false_iff_ne.mpr hrc

/-- Witness for C6: exit code 1 with a written tokens dump. -/
theorem claim_C6_witness :
    ({ success := false, tokens := some "TOK", ast := none, assembly := none, hex := none
       errors := ["bad"], stdout := "", stderr := "bad", return_code := 1 } :
       ResultDict).tokens = some "TOK" :=
  (claim_C6 (.parsed "TOK") .absent none none ⟨1, "", "bad"⟩ 30 _ rfl).2.2.2.2.1 "TOK" rfl

/-- Claim C7: the error parser returns the split lines of the stderr
text, in order, each stripped of surrounding whitespace, with blank
lines discarded; whitespace-only input yields the empty list; and the
worked example from the specification holds. -/
theorem claim_C7 :
    (∀ s : String, parse_errors s =
      (((pySplit s.data).map pyStrip).filter (fun t => !t.isEmpty)).map String.mk)
    ∧ parse_errors "a\nb\n\nc\n" = ["a", "b", "c"]
    ∧ (∀ s : String, (∀ c ∈ s.data, isPySpace c) → parse_errors s = []) := by
  have key : ∀ s : String, parse_errors s =
      (((pySplit s.data).map pyStrip).filter (fun t => !t.isEmpty)).map String.mk := by
    intro s
    unfold parse_errors
    by_cases h : (pyStrip s.data).isEmpty
    · rw [if_pos h]
      have hall : ∀ c ∈ s.data, isPySpace c :=
        (pyStrip_eq_nil_iff s.data).mp (List.isEmpty_iff.mp h)
      rw [filter_strip_nil s.data hall]
      rfl
    · rw [if_neg h]
      exact strip_filterMap_eq (pySplit s.data)
  refine ⟨key, by decide, fun s h => ?_⟩
  rw [key s, filter_strip_nil s.data h]
  rfl

/-- Witness for C7 on whitespace-only input. -/
theorem claim_C7_witness : parse_errors " \t\n " = [] :=
  claim_C7.2.2 " \t\n " (by decide)

/-- Counterexample to C8 as stated: a JSON dump that exists but whose
parse raises an exception outside the caught classes — e.g.
UnicodeDecodeError on an invalid-UTF-8 dump, or RecursionError on deep
nesting — escapes the handler in the read helper and falls to compile's
generic exception handler: the fault is then not recorded as a warning,
and far from degrading only the one field, the whole invocation is taken
over by the unexpected-error result, discarding the other artifacts
(here a validly written assembly dump). -/
theorem claim_C8_counterexample :
    ¬ (∀ (msg : String) (af : JsonDump) (asf hf : Option String) (t : Nat),
        (compile ⟨none, .completed ⟨0, "", ""⟩, .raising msg, af, asf, hf⟩ t).warnings ≠ []
        ∨ (compile ⟨none, .completed ⟨0, "", ""⟩, .raising msg, af, asf, hf⟩ t).result.map
            ResultDict.assembly = Except.ok (read_text_file asf)) := by
  intro h
  rcases h "invalid UTF-8 in dump" (.readable .absent) (some "ASM") none 30 with hw | ha
  · exact hw rfl
  · have ha2 : (Except.ok (none : Option String) : Except String (Option String))
        = Except.ok (some "ASM") := ha
    injection ha2 with ha3
    exact Option.noConfusion ha3

/-- Claim C8 (amended): a missing JSON dump yields an absent field and no
fault; a dump failing to parse with one of the caught exception classes
(json.JSONDecodeError, IOError) yields an absent field, the fault
recorded only as a non-fatal warning, the other artifact fields
unaffected and the invocation still returning its dictionary; but a dump
whose read raises outside those classes escapes the read helper and
falls to compile's generic handler, which returns the unexpected-error
result with every artifact field absent and no warning recorded. -/
theorem claim_C8 (name : String) :
    read_json_file name (.readable .absent) = .ok (none, [])
    ∧ (∀ err : String,
        (read_json_caught name (.malformed err)).1 = none
        ∧ (read_json_caught name (.malformed err)).2 ≠ []
        ∧ read_json_file name (.readable (.malformed err)) =
            .ok (read_json_caught name (.malformed err)))
    ∧ (∀ (r : ProcResult) (err : String) (af : JsonFile) (asf hf : Option String) (t : Nat),
        (compile ⟨none, .completed r, .readable (.malformed err), .readable af, asf, hf⟩
            t).result.map ResultDict.tokens = Except.ok none
        ∧ (compile ⟨none, .completed r, .readable (.malformed err), .readable af, asf, hf⟩
            t).result.map ResultDict.assembly = Except.ok (read_text_file asf)
        ∧ (compile ⟨none, .completed r, .readable (.malformed err), .readable af, asf, hf⟩
            t).warnings ≠ [])
    ∧ (∀ (r : ProcResult) (msg : String) (af : JsonDump) (asf hf : Option String) (t : Nat),
        compile ⟨none, .completed r, .raising msg, af, asf, hf⟩ t =
          { result := .ok
              { success := false, tokens := none, ast := none, assembly := none,
                hex := none, errors := ["Unexpected error: " ++ msg], stdout := "",
                stderr := msg, return_code := -1 },
            workspaceExists := false, warnings := [] }) := by
  refine ⟨rfl, fun err => ⟨rfl, fun hc => List.cons_ne_nil _ _ hc, rfl⟩,
    fun r err af asf hf t => ⟨rfl, rfl, fun hc => List.cons_ne_nil _ _ hc⟩,
    fun r msg af asf hf t => rfl⟩

/-- Witness for C8 (amended) at the tokens dump path. -/
theorem claim_C8_witness :
    read_json_file "tokens.json" (.readable .absent) = .ok (none, []) :=
  (claim_C8 "tokens.json").1

/-- Claim C9: constructing the harness with a missing compiler path
raises FileNotFoundError and with a non-executable one raises
PermissionError, at construction time. -/
theorem claim_C9 (path : String) :
    (∀ execFlag : Bool, mkInvoker path false execFlag =
        .error (.fileNotFound ("Compiler not found at: " ++ path)))
    ∧ mkInvoker path true false =
        .error (.permissionError ("Compiler not executable: " ++ path))
    ∧ mkInvoker path true true = .ok { compiler_path := path } := by
  exact ⟨fun execFlag => rfl, rfl, rfl⟩

/-- Witness for C9 at a concrete path. -/
theorem claim_C9_witness :
    mkInvoker "/usr/local/bin/mycc" true true = .ok { compiler_path := "/usr/local/bin/mycc" } :=
  (claim_C9 "/usr/local/bin/mycc").2.2

/-- Counterexample to C10 as stated: an exception raised while writing
the source file — before the try block, e.g. a UnicodeEncodeError on a
source string with lone surrogates — propagates out of compile, so
compile does not convert every non-timeout exception into a returned
result; moreover an exception result and a timeout result differ in the
stderr field as well, not only in the error message text. -/
theorem claim_C10_counterexample :
    (¬ ∀ (w : World) (t : Nat), ∃ d : ResultDict, (compile w t).result = Except.ok d)
    ∧ ¬ (∀ (t : Nat) (msg : String) (d1 d2 : ResultDict),
        (compile ⟨none, .raised msg, .readable .absent, .readable .absent, none, none⟩
          t).result = .ok d1 →
        (compile ⟨none, .timedOut, .readable .absent, .readable .absent, none, none⟩
          t).result = .ok d2 →
        d1.stderr = d2.stderr) := by
  constructor
  · intro h
    rcases h ⟨some "surrogates not allowed", .timedOut, .readable .absent, .readable .absent,
      none, none⟩ 30 with ⟨d, hd⟩
    have hd2 : (Except.error "surrogates not allowed" : Except String ResultDict)
        = Except.ok d := hd
    exact Except.noConfusion hd2
  · intro h
    have h2 : ("boom" : String) = "" := h 30 "boom" _ _ rfl rfl
    exact absurd h2 (by decide)

/-- Claim C10 (amended): once the source file has been written, any
exception other than a timeout raised around the subprocess is caught
and converted into a returned result with success = false, absent
artifacts, the single message prefixed with the fixed unexpected-error
marker, empty stdout, stderr set to the exception text, and the same
sentinel return code -1 as a timeout; an exception raised while writing
the source file instead propagates to the caller (with the workspace
still removed); and a timeout remains distinguishable from such a fault
because the synthetic messages always differ. -/
theorem claim_C10 (tf af : JsonDump) (asf hf : Option String) (t : Nat) :
    (∀ msg : String, compile ⟨none, .raised msg, tf, af, asf, hf⟩ t =
      { result := .ok
          { success := false, tokens := none, ast := none, assembly := none,
            hex := none, errors := ["Unexpected error: " ++ msg], stdout := "",
            stderr := msg, return_code := -1 },
        workspaceExists := false, warnings := [] })
    ∧ (∀ (wmsg : String) (run : RunOutcome) (tf2 af2 : JsonDump) (asf2 hf2 : Option String),
        compile ⟨some wmsg, run, tf2, af2, asf2, hf2⟩ t =
          { result := .error wmsg, workspaceExists := false, warnings := [] })
    ∧ (∀ msg : String, ["Unexpected error: " ++ msg] ≠ [timeoutMessage t]) := by
  refine ⟨fun msg => rfl, fun wmsg run tf2 af2 asf2 hf2 => rfl, fun msg hc => ?_⟩
  injection hc with h1 h2
  exact unexpectedMsg_ne_timeoutMessage msg t h1

/-- Witness for C10 (amended): a write-time exception propagates. -/
theorem claim_C10_witness :
    compile ⟨some "disk full", .timedOut, .readable .absent, .readable .absent, none, none⟩ 7 =
      { result := .error "disk full", workspaceExists := false, warnings := [] } :=
  (claim_C10 (.readable .absent) (.readable .absent) none none 7).2.1 "disk full" .timedOut
    (.readable .absent) (.readable .absent) none none

end CompilerHarness
